import Mathlib

/-!
Verification of the BBPlayer USB host driver (Rust sources: lib.rs,
player_comms.rs, commands.rs, usb.rs) against its natural-language
specification.

Modelling conventions:
* Bytes are `Nat` (values are kept below 256 by the byte-producing
  functions; hypotheses state it where a theorem needs it).
* Machine integers: `u32` values are `Nat` taken modulo 2^32 where it
  matters; the signed return code of a reply is an `Int` obtained by
  twos-complement reinterpretation of the 32-bit value.
* The USB transport is modelled as a `Conn` state carrying a finite list
  of pending receive outcomes (`inbound`, one entry consumed per
  `bulk_transfer_receive` call; an exhausted list behaves as a transport
  failure) and a log of performed bulk sends (`sent`).  Send transfers
  always succeed in the model; failures are driven through receive events.
* A Rust panic (failed assert or out-of-bounds index) is modelled as
  the distinguished outcome `Err.assertFailure`, which is never caught by
  the retry macro (matching the fact that a panic aborts).
* Every loop is compiled to structural recursion, either on a list, on a
  countdown counter from the source, or on a fuel argument that the entry
  point instantiates with `inbound.length + 1`; since every loop iteration
  consumes at least one inbound event (or returns), that fuel is never
  exhausted on the paths the source can take.
-/

/-- Device opcodes, from `enum Command` in commands.rs. -/
inductive Command where
  | WriteBlock
  | ReadBlock
  | WriteBlockAndSpare
  | ReadBlockAndSpare
  | InitFS
  | GetNumBlocks
  | SetSeqNo
  | GetSeqNo
  | FileChksum
  | SetLED
  | SetTime
  | GetBBID
  | SignHash
deriving DecidableEq, Repr

/-- The `u32` discriminant of each opcode, from `enum Command` in commands.rs. -/
def Command.code : Command → Nat
  | .WriteBlock => 0x06
  | .ReadBlock => 0x07
  | .WriteBlockAndSpare => 0x10
  | .ReadBlockAndSpare => 0x11
  | .InitFS => 0x12
  | .GetNumBlocks => 0x15
  | .SetSeqNo => 0x16
  | .GetSeqNo => 0x17
  | .FileChksum => 0x1C
  | .SetLED => 0x1D
  | .SetTime => 0x1E
  | .GetBBID => 0x1F
  | .SignHash => 0x20

/-- Failure outcomes.  The first three model `rusb::Error` values used by the
source (`Error::Io`, `Error::InvalidParam`, `Error::NoDevice` for an
exhausted transport), `assertFailure` models a Rust panic (failed `assert!`
or out-of-bounds slice/index), and the rest model the `LibBBError` variants
from error.rs (absent from src/, reconstructed from its use sites). -/
inductive Err where
  | ioError
  | invalidParam
  | noDevice
  | assertFailure
  | noConsole
  | fsFailure
  | readBlock (block_num : Nat)
  | writeBlock (block_num : Nat)
  | commandFail (c : Command) (ret : Int)
  | checkBlockWriteFail (ret : Int)
  | initFSFail (ret : Int)
  | setTimeFail (ret : Int)
  | getBBIDFail (ret : Int)
  | fileNameTooLong (fn : List Nat)
  | fileNameCString (fn : List Nat)
deriving DecidableEq, Repr

/-- A panic propagates out of the `try_continue!` retry macro instead of
being caught (a Rust panic is not a `Result` error). -/
def Err.isFatal : Err → Bool
  | .assertFailure => true
  | _ => false

instance exceptDecEq {ε α : Type} [DecidableEq ε] [DecidableEq α] :
    DecidableEq (Except ε α) := fun a b =>
  match a, b with
  | .ok x, .ok y => decidable_of_iff (x = y) (by simp)
  | .error x, .error y => decidable_of_iff (x = y) (by simp)
  | .ok _, .error _ => isFalse (by simp)
  | .error _, .ok _ => isFalse (by simp)

/-- One pending result of a `bulk_transfer_receive` call: either a transport
error or the bytes the device made available for that read. -/
abbrev RecvEvent := Except Err (List Nat)

/-- Transport state: pending receive outcomes and the log of bulk sends
performed (usb.rs wraps a `DeviceHandle`; the model replaces it by this
event-list view of the bus). -/
structure Conn where
  inbound : List RecvEvent
  sent : List (List Nat)
deriving DecidableEq, Repr

/-- Device-geometry configuration from constants.rs (absent from src/); the
spec treats these as configuration with `BLOCK_SIZE` an exact multiple of
`BLOCK_CHUNK_SIZE`. -/
structure DevParams where
  blockSize : Nat
  blockChunkSize : Nat
  spareSize : Nat
deriving DecidableEq, Repr

/-- Source `bulk_transfer_send` from usb.rs: one bulk OUT transfer, recorded in the
send log; the model makes sends infallible. -/
def bulk_transfer_send (data : List Nat) (c : Conn) : Except Err Nat × Conn :=
  (.ok data.length, { c with sent := c.sent ++ [data] })

/-- Source `bulk_transfer_receive` from usb.rs: one bulk IN transfer of at most
`length` bytes; consumes the next inbound event, truncating its payload to
the requested length exactly as `read_bulk` fills a `length`-byte buffer. -/
def bulk_transfer_receive (length : Nat) (c : Conn) : Except Err (List Nat) × Conn :=
  match c.inbound with
  | [] => (.error .noDevice, c)
  | .error e :: rest => (.error e, { c with inbound := rest })
  | .ok bytes :: rest => (.ok (bytes.take length), { c with inbound := rest })

/-- Constant `READY_SIGNAL` from player_comms.rs: `[0x15, 0, 0, 0]`. -/
def readySignal : List Nat := [0x15, 0x00, 0x00, 0x00]

/-- Big-endian bytes of a `u32` (`to_be_bytes`). -/
def be4 (n : Nat) : List Nat :=
  [n / 2 ^ 24 % 256, n / 2 ^ 16 % 256, n / 2 ^ 8 % 256, n % 256]

/-- Source `num_from_arr` at `u32` from lib.rs: asserts the slice has exactly 4 bytes
(else panic), then reads them big-endian. -/
def num_from_arr_u32 (data : List Nat) : Except Err Nat :=
  match data with
  | [b0, b1, b2, b3] => .ok (b0 * 2 ^ 24 + b1 * 2 ^ 16 + b2 * 2 ^ 8 + b3)
  | _ => .error .assertFailure

/-- Twos-complement reinterpretation of a 32-bit value as `i32`. -/
def asI32 (v : Nat) : Int :=
  if v % 2 ^ 32 < 2 ^ 31 then (v % 2 ^ 32 : Nat) else (v % 2 ^ 32 : Nat) - 2 ^ 32

/-- Source `num_from_arr` at `i32` from lib.rs. -/
def num_from_arr_i32 (data : List Nat) : Except Err Int :=
  match num_from_arr_u32 data with
  | .ok v => .ok (asI32 v)
  | .error e => .error e

/-- Source `encode_piecemeal_data` from player_comms.rs: split into groups of at
most `PIECEMEAL_DATA_CHUNK_SIZE = 3` bytes, each prefixed by
`PiecemealChunkSend (0x40) + group length`. -/
def encode_piecemeal_data : List Nat → List Nat
  | [] => []
  | [a] => [0x41, a]
  | [a, b] => [0x42, a, b]
  | a :: b :: c :: rest => 0x43 :: a :: b :: c :: encode_piecemeal_data rest

/-- Loop of `decode_piecemeal_data` from player_comms.rs.  While fewer
than `expected` bytes are decoded: read a tag byte; a tag `tu` in
`0x1D..=0x1F` copies the next `tu - 0x1C` bytes to the output (running out
of input mid-group is `Error::InvalidParam`); any other tag is `Error::Io`;
running out of input between groups falls out of the loop, where the
`assert!(buf.len() == expected_len)` fires.  The recursion is on a fuel
counter that the entry point sets to `input.length + 1`; since each loop
iteration consumes at least one input byte, the fuel-exhausted branch is
unreachable. -/
def decodeGo : Nat → List Nat → List Nat → Nat → Except Err (List Nat)
  | 0, _, _, _ => .error .assertFailure
  | fuel + 1, input, buf, expected =>
    if buf.length < expected then
      match input with
      | [] => .error .assertFailure
      | tu :: rest =>
        if tu = 0x1D then
          match rest with
          | b1 :: r => decodeGo fuel r (buf ++ [b1]) expected
          | [] => .error .invalidParam
        else if tu = 0x1E then
          match rest with
          | b1 :: b2 :: r => decodeGo fuel r (buf ++ [b1, b2]) expected
          | _ => .error .invalidParam
        else if tu = 0x1F then
          match rest with
          | b1 :: b2 :: b3 :: r => decodeGo fuel r (buf ++ [b1, b2, b3]) expected
          | _ => .error .invalidParam
        else .error .ioError
    else if buf.length = expected then .ok buf else .error .assertFailure

/-- Source `decode_piecemeal_data` from player_comms.rs. -/
def decode_piecemeal_data (data : List Nat) (expected_len : Nat) : Except Err (List Nat) :=
  decodeGo (data.length + 1) data [] expected_len

/-- Modelled from the spec: the device-side piecemeal encoding over the
receive tag base 0x1C (tags 0x1D-0x1F for group lengths 1-3).  The host
never produces this encoding (its encoder uses the send base 0x40); this
definition only constructs device-side traces for concrete scenarios. -/
def encode_recv_piecemeal : List Nat → List Nat
  | [] => []
  | [a] => [0x1D, a]
  | [a, b] => [0x1E, a, b]
  | a :: b :: c :: rest => 0x1F :: a :: b :: c :: encode_recv_piecemeal rest

/-- Source `send_piecemeal_data` from player_comms.rs. -/
def send_piecemeal_data (data : List Nat) (c : Conn) : Except Err Nat × Conn :=
  bulk_transfer_send (encode_piecemeal_data data) c

/-- Source `is_ready` from player_comms.rs: one timed 4-byte receive; a result of
any length other than 4 is `Error::Io`; otherwise report whether the bytes
equal the ready signal. -/
def is_ready (c : Conn) : Except Err Bool × Conn :=
  match bulk_transfer_receive 4 c with
  | (.error e, c1) => (.error e, c1)
  | (.ok buf, c1) =>
    if buf.length ≠ 4 then (.error .ioError, c1)
    else (.ok (buf = readySignal), c1)

/-- Fuel-indexed loop of `wait_ready` from player_comms.rs
(`while !self.is_ready()? {}`). -/
def waitReadyGo : Nat → Conn → Except Err Unit × Conn
  | 0, c => (.error .noDevice, c)
  | fuel + 1, c =>
    match is_ready c with
    | (.error e, c1) => (.error e, c1)
    | (.ok true, c1) => (.ok (), c1)
    | (.ok false, c1) => waitReadyGo fuel c1

/-- Source `wait_ready` from player_comms.rs.  Each poll consumes one inbound
event (or fails on an exhausted transport), so `inbound.length + 1` fuel is
never exhausted. -/
def wait_ready (c : Conn) : Except Err Unit × Conn :=
  waitReadyGo (c.inbound.length + 1) c

/-- Source `send_command` from player_comms.rs: wait for ready, then piecemeal-send
the 8-byte frame of big-endian opcode word and argument word. -/
def send_command (command arg : Nat) (c : Conn) : Except Err Unit × Conn :=
  match wait_ready c with
  | (.error e, c1) => (.error e, c1)
  | (.ok _, c1) =>
    match send_piecemeal_data (be4 command ++ be4 arg) c1 with
    | (.ok _, c2) => (.ok (), c2)
    | (.error e, c2) => (.error e, c2)

/-- Source `send_ack` from player_comms.rs: a single `Ack = 0x44` byte. -/
def send_ack (c : Conn) : Except Err Nat × Conn :=
  bulk_transfer_send [0x44] c

/-- Fuel-indexed loop of `receive_data_length` from player_comms.rs: read a
4-byte header; an exact ready signal is discarded and the read retried;
otherwise the header must be 4 bytes with top byte `0x1B` (else `Error::Io`)
and its low 3 bytes, big-endian, are the body length. -/
def receiveDataLengthGo : Nat → Conn → Except Err Nat × Conn
  | 0, c => (.error .noDevice, c)
  | fuel + 1, c =>
    match bulk_transfer_receive 4 c with
    | (.error e, c1) => (.error e, c1)
    | (.ok data, c1) =>
      if data = readySignal then receiveDataLengthGo fuel c1
      else if data.length ≠ 4 ∨ data.headD 0 ≠ 0x1B then (.error .ioError, c1)
      else
        match num_from_arr_u32 data with
        | .ok v => (.ok (v % 2 ^ 24), c1)
        | .error e => (.error e, c1)

/-- Source `receive_data_length` from player_comms.rs. -/
def receive_data_length (c : Conn) : Except Err Nat × Conn :=
  receiveDataLengthGo (c.inbound.length + 1) c

/-- Fuel-indexed loop of `receive_data` from player_comms.rs: read packets
of `min(PACKET_SIZE = 0x80, capacity − buffered)` bytes, stopping at the
first packet shorter than `PACKET_SIZE`. -/
def receiveDataGo : Nat → Conn → Nat → List Nat → Except Err (List Nat) × Conn
  | 0, c, _, buf => (.ok buf, c)
  | fuel + 1, c, cap, buf =>
    match bulk_transfer_receive (min 0x80 (cap - buf.length)) c with
    | (.error e, c1) => (.error e, c1)
    | (.ok recv, c1) =>
      if recv.length = 0x80 then receiveDataGo fuel c1 cap (buf ++ recv)
      else (.ok (buf ++ recv), c1)

/-- Source `receive_data` from player_comms.rs: buffer the inflated body (buffer
capacity `expected + expected/3 + (3 − expected mod 3) mod 3 + 1`), send the
acknowledgment byte, then piecemeal-decode to the expected raw length. -/
def receive_data (expected_len : Nat) (c : Conn) : Except Err (List Nat) × Conn :=
  let cap := expected_len + expected_len / 3 + (3 - expected_len % 3) % 3 + 1
  match receiveDataGo (c.inbound.length + 1) c cap [] with
  | (.error e, c1) => (.error e, c1)
  | (.ok buf, c1) =>
    match send_ack c1 with
    | (.error e, c2) => (.error e, c2)
    | (.ok _, c2) =>
      match decode_piecemeal_data buf expected_len with
      | .ok out => (.ok out, c2)
      | .error e => (.error e, c2)

/-- Source `receive_reply` from player_comms.rs: read the length header; a declared
length of zero or above the caller-supplied maximum is `Error::InvalidParam`;
otherwise receive and decode exactly that many bytes. -/
def receive_reply (expected_len : Nat) (c : Conn) : Except Err (List Nat) × Conn :=
  match receive_data_length c with
  | (.error e, c1) => (.error e, c1)
  | (.ok data_length, c1) =>
    if data_length = 0 ∨ data_length > expected_len then (.error .invalidParam, c1)
    else receive_data data_length c1

/-- Fuel-indexed chunk splitter (`slice::chunks(n)` with `n ≥ 1`). -/
def chunksOfGo : Nat → Nat → List Nat → List (List Nat)
  | 0, _, _ => []
  | _ + 1, _, [] => []
  | fuel + 1, n, l => l.take n :: chunksOfGo fuel n (l.drop n)

/-- Rust `slice::chunks(n)`: the list split into consecutive groups of at most
`n` elements, no group for the empty slice. -/
def chunksOf (n : Nat) (l : List Nat) : List (List Nat) :=
  chunksOfGo l.length n l

/-- Loop of `send_chunked_data` from player_comms.rs over the chunk list. -/
def sendChunkedGo : List (List Nat) → Conn → Except Err Unit × Conn
  | [], c => (.ok (), c)
  | chunk :: rest, c =>
    match bulk_transfer_send ([0x63, chunk.length % 256] ++ chunk) c with
    | (.error e, c1) => (.error e, c1)
    | (.ok _, c1) => sendChunkedGo rest c1

/-- Source `send_chunked_data` from player_comms.rs: split the payload into chunks
of at most `SEND_CHUNK_SIZE − 2 = 0xFE` bytes, each framed as
`[SendChunk = 0x63, length-as-u8]` followed by the chunk. -/
def send_chunked_data (data : List Nat) (c : Conn) : Except Err Unit × Conn :=
  sendChunkedGo (chunksOf 0xFE data) c

/-- Source `command_ret` from commands.rs, reading bytes 4..8 as an `i32`; the
slice panics when the reply is shorter than 8 bytes. -/
def command_ret (buf : List Nat) : Except Err Int :=
  if buf.length < 8 then .error .assertFailure
  else num_from_arr_i32 ((buf.drop 4).take 4)

/-- Source `request_block_read` from commands.rs: send the command, then check the
return code of an 8-byte reply; a negative code is `LibBBError::Command`.
Failures here propagate via `?` — they are not retried. -/
def request_block_read (command : Command) (block_num : Nat) (c : Conn) :
    Except Err Unit × Conn :=
  match send_command command.code block_num c with
  | (.error e, c1) => (.error e, c1)
  | (.ok _, c1) =>
    match receive_reply 8 c1 with
    | (.error e, c2) => (.error e, c2)
    | (.ok buf, c2) =>
      match command_ret buf with
      | .error e => (.error e, c2)
      | .ok ret =>
        if ret < 0 then (.error (.commandFail command ret), c2) else (.ok (), c2)

/-- Loop of `get_block` from commands.rs: `BLOCK_SIZE / BLOCK_CHUNK_SIZE`
replies of at most `BLOCK_CHUNK_SIZE` bytes each, concatenated. -/
def getBlockGo (chunkSize : Nat) : Nat → Conn → List Nat → Except Err (List Nat) × Conn
  | 0, c, buf => (.ok buf, c)
  | k + 1, c, buf =>
    match receive_reply chunkSize c with
    | (.error e, c1) => (.error e, c1)
    | (.ok part, c1) => getBlockGo chunkSize k c1 (buf ++ part)

/-- Source `get_block` from commands.rs. -/
def get_block (P : DevParams) (c : Conn) : Except Err (List Nat) × Conn :=
  getBlockGo P.blockChunkSize (P.blockSize / P.blockChunkSize) c []

/-- Source `get_spare` from commands.rs. -/
def get_spare (P : DevParams) (c : Conn) : Except Err (List Nat) × Conn :=
  receive_reply P.spareSize c

/-- Attempt loop of `read_block_spare` from commands.rs.  The command
request uses `?` (its failure propagates immediately); only failures of the
block read and the spare read go through `try_continue!` to the next
attempt; a panic is never caught.  Exhausting the attempts yields
`LibBBError::ReadBlock(block_num)`. -/
def readBlockSpareGo (P : DevParams) (block_num : Nat) :
    Nat → Conn → Except Err (List Nat × List Nat) × Conn
  | 0, c => (.error (.readBlock block_num), c)
  | k + 1, c =>
    match request_block_read .ReadBlockAndSpare block_num c with
    | (.error e, c1) => (.error e, c1)
    | (.ok _, c1) =>
      match get_block P c1 with
      | (.error e, c2) =>
        if e.isFatal then (.error e, c2) else readBlockSpareGo P block_num k c2
      | (.ok block, c2) =>
        match get_spare P c2 with
        | (.error e, c3) =>
          if e.isFatal then (.error e, c3) else readBlockSpareGo P block_num k c3
        | (.ok spare, c3) => (.ok (block, spare), c3)

/-- Source `read_block_spare` from commands.rs: up to 5 attempts. -/
def read_block_spare (P : DevParams) (block_num : Nat) (c : Conn) :
    Except Err (List Nat × List Nat) × Conn :=
  readBlockSpareGo P block_num 5 c

/-- Source `request_block_write` from commands.rs: send the command, then wait for
the ready handshake. -/
def request_block_write (command : Command) (block_num : Nat) (c : Conn) :
    Except Err Unit × Conn :=
  match send_command command.code block_num c with
  | (.error e, c1) => (.error e, c1)
  | (.ok _, c1) => wait_ready c1

/-- Source `check_block_write` from commands.rs: a negative return code in an
8-byte reply is `LibBBError::CheckBlockWrite`. -/
def check_block_write (c : Conn) : Except Err Unit × Conn :=
  match receive_reply 8 c with
  | (.error e, c1) => (.error e, c1)
  | (.ok buf, c1) =>
    match command_ret buf with
    | .error e => (.error e, c1)
    | .ok ret =>
      if ret < 0 then (.error (.checkBlockWriteFail ret), c1) else (.ok (), c1)

/-- Source `send_block` from commands.rs. -/
def send_block (data : List Nat) (c : Conn) : Except Err Unit × Conn :=
  send_chunked_data data c

/-- Source `send_spare` from commands.rs: wait for ready, then piecemeal-send the
first 3 spare bytes followed by `SPARE_SIZE − 3` bytes of `0xFF`; the slice
`&data[..3]` panics when the spare is shorter than 3 bytes. -/
def send_spare (P : DevParams) (data : List Nat) (c : Conn) : Except Err Unit × Conn :=
  match wait_ready c with
  | (.error e, c1) => (.error e, c1)
  | (.ok _, c1) =>
    if data.length < 3 then (.error .assertFailure, c1)
    else
      match send_piecemeal_data (data.take 3 ++ List.replicate (P.spareSize - 3) 0xFF) c1 with
      | (.ok _, c2) => (.ok (), c2)
      | (.error e, c2) => (.error e, c2)

/-- Attempt loop of `write_block_spare` from commands.rs: every stage goes
through `try_continue!` (a panic is never caught); exhausting the attempts
yields `LibBBError::WriteBlock(block_num)`. -/
def writeBlockSpareGo (P : DevParams) (block spare : List Nat) (block_num : Nat) :
    Nat → Conn → Except Err Unit × Conn
  | 0, c => (.error (.writeBlock block_num), c)
  | k + 1, c =>
    match request_block_write .WriteBlockAndSpare block_num c with
    | (.error e, c1) =>
      if e.isFatal then (.error e, c1) else writeBlockSpareGo P block spare block_num k c1
    | (.ok _, c1) =>
      match send_block block c1 with
      | (.error e, c2) =>
        if e.isFatal then (.error e, c2) else writeBlockSpareGo P block spare block_num k c2
      | (.ok _, c2) =>
        match send_spare P spare c2 with
        | (.error e, c3) =>
          if e.isFatal then (.error e, c3) else writeBlockSpareGo P block spare block_num k c3
        | (.ok _, c3) =>
          match check_block_write c3 with
          | (.error e, c4) =>
            if e.isFatal then (.error e, c4)
            else writeBlockSpareGo P block spare block_num k c4
          | (.ok _, c4) => (.ok (), c4)

/-- Source `write_block_spare` from commands.rs: indexing `spare[5]` panics on a
spare shorter than 6 bytes; a spare whose byte 5 is not `0xFF` marks the
block bad and the write returns `Ok` at once; otherwise up to 5 attempts. -/
def write_block_spare (P : DevParams) (block spare : List Nat) (block_num : Nat)
    (c : Conn) : Except Err Unit × Conn :=
  match spare.get? 5 with
  | none => (.error .assertFailure, c)
  | some marker =>
    if marker ≠ 0xFF then (.ok (), c)
    else writeBlockSpareGo P block spare block_num 5 c

/-- Source `init_fs` from commands.rs. -/
def init_fs (c : Conn) : Except Err Unit × Conn :=
  match send_command Command.InitFS.code 0 c with
  | (.error e, c1) => (.error e, c1)
  | (.ok _, c1) =>
    match receive_reply 8 c1 with
    | (.error e, c2) => (.error e, c2)
    | (.ok buf, c2) =>
      match command_ret buf with
      | .error e => (.error e, c2)
      | .ok ret =>
        if ret < 0 then (.error (.initFSFail ret), c2) else (.ok (), c2)

/-- Source `get_num_blocks` from commands.rs: reply bytes 4..8, big-endian, as an
unsigned count; the slice panics on a reply shorter than 8 bytes. -/
def get_num_blocks (c : Conn) : Except Err Nat × Conn :=
  match send_command Command.GetNumBlocks.code 0 c with
  | (.error e, c1) => (.error e, c1)
  | (.ok _, c1) =>
    match receive_reply 8 c1 with
    | (.error e, c2) => (.error e, c2)
    | (.ok reply, c2) =>
      if reply.length < 8 then (.error .assertFailure, c2)
      else
        match num_from_arr_u32 ((reply.drop 4).take 4) with
        | .ok size => (.ok size, c2)
        | .error e => (.error e, c2)

/-- Source `set_seqno` from commands.rs: the reply is received and discarded. -/
def set_seqno (arg : Nat) (c : Conn) : Except Err Unit × Conn :=
  match send_command Command.SetSeqNo.code arg c with
  | (.error e, c1) => (.error e, c1)
  | (.ok _, c1) =>
    match receive_reply 8 c1 with
    | (.error e, c2) => (.error e, c2)
    | (.ok _, c2) => (.ok (), c2)

/-- Rust split on the dot character over a byte string (0x2E is the dot). -/
def splitDot : List Nat → List (List Nat)
  | [] => [[]]
  | b :: rest =>
    match splitDot rest with
    | [] => [[]]
    | g :: gs => if b = 0x2E then [] :: g :: gs else (b :: g) :: gs

/-- Source `send_filename` from commands.rs: split on dots; with more than one
piece the name is piece 0 and the extension piece 1, otherwise the single
piece and an empty extension; a name over 8 bytes or an extension over 3 is
`FileNameTooLong`; an interior NUL byte is `FileNameCString`; then send the
`FileChksum` command with the NUL-terminated length as argument, wait for
ready, and piecemeal-send the terminated bytes zero-padded to a 4-byte
boundary. -/
def send_filename (filename : List Nat) (c : Conn) : Except Err Unit × Conn :=
  let split := splitDot filename
  let name := split.headD []
  let ext := if split.length > 1 then split.getD 1 [] else []
  if name.length > 8 ∨ ext.length > 3 then (.error (.fileNameTooLong filename), c)
  else if filename.contains 0 then (.error (.fileNameCString filename), c)
  else
    let withNul := filename ++ [0]
    match send_command Command.FileChksum.code withNul.length c with
    | (.error e, c1) => (.error e, c1)
    | (.ok _, c1) =>
      match wait_ready c1 with
      | (.error e, c2) => (.error e, c2)
      | (.ok _, c2) =>
        match
          send_piecemeal_data
            (withNul ++ List.replicate ((4 - withNul.length % 4) % 4) 0) c2
        with
        | (.ok _, c3) => (.ok (), c3)
        | (.error e, c3) => (.error e, c3)

/-- Source `send_params_and_receive_reply` from commands.rs: the checksum rides in
the opcode field and the size in the argument field; reply bytes 4..8 equal
to zero means match. -/
def send_params_and_receive_reply (chksum size : Nat) (c : Conn) :
    Except Err Bool × Conn :=
  match send_command chksum size c with
  | (.error e, c1) => (.error e, c1)
  | (.ok _, c1) =>
    match receive_reply 8 c1 with
    | (.error e, c2) => (.error e, c2)
    | (.ok reply, c2) =>
      match command_ret reply with
      | .error e => (.error e, c2)
      | .ok ret => (.ok (ret = 0), c2)

/-- Source `file_checksum_cmp` from commands.rs. -/
def file_checksum_cmp (filename : List Nat) (chksum size : Nat) (c : Conn) :
    Except Err Bool × Conn :=
  match send_filename filename c with
  | (.error e, c1) => (.error e, c1)
  | (.ok _, c1) => send_params_and_receive_reply chksum size c1

/-- Source `set_led` from commands.rs: the reply is received and discarded. -/
def set_led (ledval : Nat) (c : Conn) : Except Err Unit × Conn :=
  match send_command Command.SetLED.code ledval c with
  | (.error e, c1) => (.error e, c1)
  | (.ok _, c1) =>
    match receive_reply 8 c1 with
    | (.error e, c2) => (.error e, c2)
    | (.ok _, c2) => (.ok (), c2)

/-- Source `set_time` from commands.rs: the first 4 timestamp bytes ride as the
command argument; a negative return code is `LibBBError::SetTime`; otherwise
the remaining 4 bytes are piecemeal-sent. -/
def set_time (timedata : List Nat) (c : Conn) : Except Err Unit × Conn :=
  match num_from_arr_u32 (timedata.take 4) with
  | .error e => (.error e, c)
  | .ok first_half =>
    match send_command Command.SetTime.code first_half c with
    | (.error e, c1) => (.error e, c1)
    | (.ok _, c1) =>
      match receive_reply 8 c1 with
      | (.error e, c2) => (.error e, c2)
      | (.ok buf, c2) =>
        match command_ret buf with
        | .error e => (.error e, c2)
        | .ok ret =>
          if ret < 0 then (.error (.setTimeFail ret), c2)
          else
            match send_piecemeal_data (timedata.drop 4) c2 with
            | (.ok _, c3) => (.ok (), c3)
            | (.error e, c3) => (.error e, c3)

/-- Source `get_bbid` from commands.rs: a negative return code is
`LibBBError::GetBBID`; otherwise reply bytes 4..8 as an unsigned ID. -/
def get_bbid (c : Conn) : Except Err Nat × Conn :=
  match send_command Command.GetBBID.code 0 c with
  | (.error e, c1) => (.error e, c1)
  | (.ok _, c1) =>
    match receive_reply 8 c1 with
    | (.error e, c2) => (.error e, c2)
    | (.ok reply, c2) =>
      match command_ret reply with
      | .error e => (.error e, c2)
      | .ok ret =>
        if ret < 0 then (.error (.getBBIDFail ret), c2)
        else
          match num_from_arr_u32 ((reply.drop 4).take 4) with
          | .ok v => (.ok v, c2)
          | .error e => (.error e, c2)

/-- Per-block loop of `dump_nand_and_spare` from commands.rs. -/
def dumpGo (P : DevParams) : Nat → Nat → Conn → List Nat → List Nat →
    Except Err (List Nat × List Nat) × Conn
  | 0, _, c, nand, spare => (.ok (nand, spare), c)
  | k + 1, i, c, nand, spare =>
    match read_block_spare P i c with
    | (.error e, c1) => (.error e, c1)
    | (.ok (b, s), c1) => dumpGo P k (i + 1) c1 (nand ++ b) (spare ++ s)

/-- Source `dump_nand_and_spare` from commands.rs: block count query, then every
block index in order. -/
def dump_nand_and_spare (P : DevParams) (c : Conn) :
    Except Err (List Nat × List Nat) × Conn :=
  match get_num_blocks c with
  | (.error e, c1) => (.error e, c1)
  | (.ok num_blocks, c1) => dumpGo P num_blocks 0 c1 [] []

/-- Source `read_single_block` from commands.rs. -/
def read_single_block (P : DevParams) (block_num : Nat) (c : Conn) :
    Except Err (List Nat × List Nat) × Conn :=
  read_block_spare P block_num c

/-- Source `write_single_block` from commands.rs. -/
def write_single_block (P : DevParams) (block spare : List Nat) (block_num : Nat)
    (c : Conn) : Except Err Unit × Conn :=
  write_block_spare P block spare block_num c

/-- The `BBPlayer` session state from lib.rs: the transport connection and
the `is_initialised` flag.  The filesystem cursor fields
(`current_fs_index`, `current_fs_block`, `current_fs_spare`) are used only
by the fs module, which is outside the reviewed core, and are omitted. -/
structure Player where
  conn : Conn
  is_initialised : Bool
deriving DecidableEq, Repr

/-- Run a connection-level operation inside a session, threading the
connection through (the borrow of `self.handle` in the source). -/
def liftC {α : Type} (f : Conn → Except Err α × Conn) (p : Player) :
    Except Err α × Player :=
  match f p.conn with
  | (r, c1) => (r, { p with conn := c1 })

/-- Modelled from the spec: `get_current_fs`, from the fs module absent from
src/.  The spec treats the filesystem collaborator as opaque; only the fact
that `Init` consults it matters here, so the model lets it fail. -/
def get_current_fs (c : Conn) : Except Err Bool × Conn :=
  (.error .fsFailure, c)

/-- Modelled from the spec: `list_file_blocks`, from the absent fs module
(opaque collaborator). -/
def list_file_blocks (_filename : List Nat) (c : Conn) :
    Except Err (Option (List Nat)) × Conn :=
  (.error .fsFailure, c)

/-- Modelled from the spec: `list_files`, from the absent fs module (opaque
collaborator). -/
def list_files (c : Conn) : Except Err (List (List Nat × Nat)) × Conn :=
  (.error .fsFailure, c)

/-- Modelled from the spec: `dump_current_fs`, from the absent fs module
(opaque collaborator). -/
def dump_current_fs (c : Conn) : Except Err (List Nat) × Conn :=
  (.error .fsFailure, c)

/-- Modelled from the spec: `read_file`, from the absent fs module (opaque
collaborator). -/
def read_file (_filename : List Nat) (c : Conn) :
    Except Err (Option (List Nat)) × Conn :=
  (.error .fsFailure, c)

/-- Modelled from the spec: `write_file`, from the absent fs module (opaque
collaborator). -/
def write_file (_data _filename : List Nat) (c : Conn) : Except Err Unit × Conn :=
  (.error .fsFailure, c)

/-- Modelled from the spec: `delete_file_and_update`, from the absent fs
module (opaque collaborator). -/
def delete_file_and_update (_filename : List Nat) (c : Conn) :
    Except Err Unit × Conn :=
  (.error .fsFailure, c)

/-- Modelled from the spec: `get_stats`, from the absent fs module (opaque
collaborator). -/
def get_stats (c : Conn) : Except Err (Nat × Nat × Nat × Nat) × Conn :=
  (.error .fsFailure, c)

/-- Source `close_connection` from usb.rs: releases the interface and reattaches
the kernel driver; these are control operations, not bulk transfers, so the
event-list connection state is unchanged. -/
def close_connection (c : Conn) : Except Err Unit × Conn :=
  (.ok (), c)

/-- The scratch file name `temp.tmp` (ASCII bytes) deleted by `Init` in
lib.rs. -/
def tempFileName : List Nat := [116, 101, 109, 112, 46, 116, 109, 112]

/-- Source `Init` from lib.rs: sequence number 1, block count, current filesystem
snapshot (a `false` snapshot result is `LibBBError::FS`), `InitFS`, delete
the scratch file, then mark initialised.  Not gated on the initialised
flag. -/
def Init (p : Player) : Except Err Unit × Player :=
  match set_seqno 1 p.conn with
  | (.error e, c1) => (.error e, { p with conn := c1 })
  | (.ok _, c1) =>
    match get_num_blocks c1 with
    | (.error e, c2) => (.error e, { p with conn := c2 })
    | (.ok _, c2) =>
      match get_current_fs c2 with
      | (.error e, c3) => (.error e, { p with conn := c3 })
      | (.ok false, c3) => (.error .fsFailure, { p with conn := c3 })
      | (.ok true, c3) =>
        match init_fs c3 with
        | (.error e, c4) => (.error e, { p with conn := c4 })
        | (.ok _, c4) =>
          match delete_file_and_update tempFileName c4 with
          | (.error e, c5) => (.error e, { p with conn := c5 })
          | (.ok _, c5) => (.ok (), { conn := c5, is_initialised := true })

/-- Source `GetBBID` from lib.rs. -/
def GetBBID (p : Player) : Except Err Nat × Player :=
  if p.is_initialised then liftC get_bbid p else (.error .noConsole, p)

/-- Source `SetLED` from lib.rs. -/
def SetLED (ledval : Nat) (p : Player) : Except Err Unit × Player :=
  if p.is_initialised then liftC (set_led ledval) p else (.error .noConsole, p)

/-- The broken-down timestamp `SetTime` receives (the chrono `DateTime`
components the source reads). -/
structure DateTimeParts where
  year : Nat
  month : Nat
  day : Nat
  weekday : Nat
  hour : Nat
  minute : Nat
  second : Nat
deriving DecidableEq, Repr

/-- The 8 timestamp bytes `SetTime` builds in lib.rs: century-relative year,
month, day, weekday, a zero byte, hour, minute, second (each as `u8`). -/
def timedataOf (dt : DateTimeParts) : List Nat :=
  [dt.year % 100, dt.month % 256, dt.day % 256, dt.weekday % 256, 0,
    dt.hour % 256, dt.minute % 256, dt.second % 256]

/-- Source `SetTime` from lib.rs. -/
def SetTime (dt : DateTimeParts) (p : Player) : Except Err Unit × Player :=
  if p.is_initialised then liftC (set_time (timedataOf dt)) p
  else (.error .noConsole, p)

/-- Source `ListFileBlocks` from lib.rs. -/
def ListFileBlocks (filename : List Nat) (p : Player) :
    Except Err (Option (List Nat)) × Player :=
  if p.is_initialised then liftC (list_file_blocks filename) p
  else (.error .noConsole, p)

/-- Source `ListFiles` from lib.rs. -/
def ListFiles (p : Player) : Except Err (List (List Nat × Nat)) × Player :=
  if p.is_initialised then liftC list_files p else (.error .noConsole, p)

/-- Source `DumpCurrentFS` from lib.rs. -/
def DumpCurrentFS (p : Player) : Except Err (List Nat) × Player :=
  if p.is_initialised then liftC dump_current_fs p else (.error .noConsole, p)

/-- Source `DumpNAND` from lib.rs. -/
def DumpNAND (P : DevParams) (p : Player) :
    Except Err (List Nat × List Nat) × Player :=
  if p.is_initialised then liftC (dump_nand_and_spare P) p
  else (.error .noConsole, p)

/-- Source `ReadSingleBlock` from lib.rs. -/
def ReadSingleBlock (P : DevParams) (block_num : Nat) (p : Player) :
    Except Err (List Nat × List Nat) × Player :=
  if p.is_initialised then liftC (read_single_block P block_num) p
  else (.error .noConsole, p)

/-- Source `WriteSingleBlock` from lib.rs. -/
def WriteSingleBlock (P : DevParams) (block spare : List Nat) (block_num : Nat)
    (p : Player) : Except Err Unit × Player :=
  if p.is_initialised then liftC (write_single_block P block spare block_num) p
  else (.error .noConsole, p)

/-- Source `ReadFile` from lib.rs. -/
def ReadFile (filename : List Nat) (p : Player) :
    Except Err (Option (List Nat)) × Player :=
  if p.is_initialised then liftC (read_file filename) p else (.error .noConsole, p)

/-- Source `WriteFile` from lib.rs. -/
def WriteFile (data filename : List Nat) (p : Player) : Except Err Unit × Player :=
  if p.is_initialised then liftC (write_file data filename) p
  else (.error .noConsole, p)

/-- Source `DeleteFile` from lib.rs. -/
def DeleteFile (filename : List Nat) (p : Player) : Except Err Unit × Player :=
  if p.is_initialised then liftC (delete_file_and_update filename) p
  else (.error .noConsole, p)

/-- Source `GetStats` from lib.rs. -/
def GetStats (p : Player) : Except Err (Nat × Nat × Nat × Nat) × Player :=
  if p.is_initialised then liftC get_stats p else (.error .noConsole, p)

/-- Source `Close` from lib.rs: on an initialised session, close the connection and
clear the flag. -/
def ClosePlayer (p : Player) : Except Err Unit × Player :=
  if p.is_initialised then
    match close_connection p.conn with
    | (.error e, c1) => (.error e, { p with conn := c1 })
    | (.ok _, c1) => (.ok (), { conn := c1, is_initialised := false })
  else (.error .noConsole, p)

/-! ## Helper lemmas -/

/-- Lemma: `decodeGo` succeeds only with an output of exactly the expected
length. -/
theorem decodeGo_ok_length (fuel : Nat) :
    ∀ input buf expected out, decodeGo fuel input buf expected = .ok out →
      out.length = expected := by
  induction fuel with
  | zero => intro input buf expected out h; exact absurd h (by simp [decodeGo])
  | succ n ih =>
    intro input buf expected out h
    simp only [decodeGo] at h
    repeat' split at h
    all_goals first
      | exact ih _ _ _ _ h
      | (injection h with h2; subst h2; omega)
      | injection h

/-- Lemma: `decode_piecemeal_data` succeeds only with an output of exactly the
expected length. -/
theorem decode_piecemeal_data_ok_length (data : List Nat) (expected_len : Nat)
    (out : List Nat) (h : decode_piecemeal_data data expected_len = .ok out) :
    out.length = expected_len :=
  decodeGo_ok_length (data.length + 1) data [] expected_len out h

/-! ## Claim C1 -/

/-- Claim C1, as stated, is false: piecemeal-encoding the one-byte payload
`[0]` produces the send-tagged frame `[0x41, 0x00]`, which the decoder (that
accepts only the receive tags `0x1D`-`0x1F`) rejects instead of returning
the original byte. -/
theorem C1_counterexample :
    decode_piecemeal_data (encode_piecemeal_data [0]) 1 ≠ .ok [0] := by decide

/-- Claim C1 (amended): encode-then-decode returns `Ok` of the original
bytes only for the empty payload; for every nonempty payload the encoder
emits a send-base tag (`0x41`-`0x43`) that the decoder, which accepts only
the receive-base tags (`0x1D`-`0x1F`), rejects with `Error::Io`. -/
theorem C1_encode_decode :
    ∀ data : List Nat,
      decode_piecemeal_data (encode_piecemeal_data data) data.length =
        if data = [] then .ok [] else .error .ioError := by
  intro data
  match data with
  | [] => rfl
  | [a] => simp [decode_piecemeal_data, encode_piecemeal_data, decodeGo]
  | [a, b] => simp [decode_piecemeal_data, encode_piecemeal_data, decodeGo]
  | a :: b :: c :: rest =>
    simp [decode_piecemeal_data, encode_piecemeal_data, decodeGo]

/-! ## Claim C3 -/

/-- Claim C3: every public command operation invoked on a session whose
initialised flag is false returns the state error `NoConsole` at once with
the session — including its transport state — completely untouched (no send
is logged and no receive event is consumed); `Init` itself is not guarded
(on an uninitialised session with an exhausted transport it proceeds into
transport activity and fails with the transport error, not the state
error). -/
theorem C3_uninitialised_guard (P : DevParams) (p : Player) (ledval : Nat)
    (dt : DateTimeParts) (filename data block spare : List Nat)
    (block_num : Nat) (h : p.is_initialised = false) :
    GetBBID p = (.error .noConsole, p) ∧
    SetLED ledval p = (.error .noConsole, p) ∧
    SetTime dt p = (.error .noConsole, p) ∧
    ListFileBlocks filename p = (.error .noConsole, p) ∧
    ListFiles p = (.error .noConsole, p) ∧
    DumpCurrentFS p = (.error .noConsole, p) ∧
    DumpNAND P p = (.error .noConsole, p) ∧
    ReadSingleBlock P block_num p = (.error .noConsole, p) ∧
    WriteSingleBlock P block spare block_num p = (.error .noConsole, p) ∧
    ReadFile filename p = (.error .noConsole, p) ∧
    WriteFile data filename p = (.error .noConsole, p) ∧
    DeleteFile filename p = (.error .noConsole, p) ∧
    GetStats p = (.error .noConsole, p) ∧
    ClosePlayer p = (.error .noConsole, p) ∧
    (Init ⟨⟨[], []⟩, false⟩).1 = .error .noDevice := by
  refine ⟨?_, ?_, ?_, ?_, ?_, ?_, ?_, ?_, ?_, ?_, ?_, ?_, ?_, ?_, by decide⟩
  all_goals
    simp [GetBBID, SetLED, SetTime, ListFileBlocks, ListFiles, DumpCurrentFS,
      DumpNAND, ReadSingleBlock, WriteSingleBlock, ReadFile, WriteFile,
      DeleteFile, GetStats, ClosePlayer, h]

/-- Witness for C3 on a concrete uninitialised session with concrete
arguments. -/
theorem C3_witness :
    GetBBID ⟨⟨[], []⟩, false⟩ = (.error .noConsole, ⟨⟨[], []⟩, false⟩) ∧
    SetLED 2 ⟨⟨[], []⟩, false⟩ = (.error .noConsole, ⟨⟨[], []⟩, false⟩) ∧
    SetTime ⟨2024, 5, 1, 2, 3, 4, 5⟩ ⟨⟨[], []⟩, false⟩ =
      (.error .noConsole, ⟨⟨[], []⟩, false⟩) ∧
    ListFileBlocks [65] ⟨⟨[], []⟩, false⟩ =
      (.error .noConsole, ⟨⟨[], []⟩, false⟩) ∧
    ListFiles ⟨⟨[], []⟩, false⟩ = (.error .noConsole, ⟨⟨[], []⟩, false⟩) ∧
    DumpCurrentFS ⟨⟨[], []⟩, false⟩ = (.error .noConsole, ⟨⟨[], []⟩, false⟩) ∧
    DumpNAND ⟨16, 4, 6⟩ ⟨⟨[], []⟩, false⟩ =
      (.error .noConsole, ⟨⟨[], []⟩, false⟩) ∧
    ReadSingleBlock ⟨16, 4, 6⟩ 3 ⟨⟨[], []⟩, false⟩ =
      (.error .noConsole, ⟨⟨[], []⟩, false⟩) ∧
    WriteSingleBlock ⟨16, 4, 6⟩ [1] [2] 3 ⟨⟨[], []⟩, false⟩ =
      (.error .noConsole, ⟨⟨[], []⟩, false⟩) ∧
    ReadFile [65] ⟨⟨[], []⟩, false⟩ = (.error .noConsole, ⟨⟨[], []⟩, false⟩) ∧
    WriteFile [1] [65] ⟨⟨[], []⟩, false⟩ =
      (.error .noConsole, ⟨⟨[], []⟩, false⟩) ∧
    DeleteFile [65] ⟨⟨[], []⟩, false⟩ =
      (.error .noConsole, ⟨⟨[], []⟩, false⟩) ∧
    GetStats ⟨⟨[], []⟩, false⟩ = (.error .noConsole, ⟨⟨[], []⟩, false⟩) ∧
    ClosePlayer ⟨⟨[], []⟩, false⟩ = (.error .noConsole, ⟨⟨[], []⟩, false⟩) ∧
    (Init ⟨⟨[], []⟩, false⟩).1 = .error .noDevice :=
  C3_uninitialised_guard ⟨16, 4, 6⟩ ⟨⟨[], []⟩, false⟩ 2 ⟨2024, 5, 1, 2, 3, 4, 5⟩
    [65] [1] [1] [2] 3 rfl

/-! ## Claim C4 -/

/-- Claim C4: when the bad-block marker of the spare (byte 5) is present and is
not `0xFF`, `write_block_spare` reports success immediately with the
connection completely untouched — no command sent, no data transmitted; when
byte 5 equals `0xFF` the write proceeds to transmit, as the spec scenario
(block index 3, spare `[01 02 03 9A 00 FF]`, cooperative device) shows: the
operation succeeds after logging 4 bulk sends (command frame, chunked block,
spare frame, acknowledgment). -/
theorem C4_write_block_spare_bad_block (P : DevParams) (c : Conn)
    (block spare : List Nat) (block_num marker : Nat)
    (h5 : spare.get? 5 = some marker) (hm : marker ≠ 0xFF) :
    write_block_spare P block spare block_num c = (.ok (), c) ∧
      ((write_block_spare ⟨16, 4, 6⟩ (List.replicate 16 0)
            [0x01, 0x02, 0x03, 0x9A, 0x00, 0xFF] 3
            ⟨[.ok readySignal, .ok readySignal, .ok readySignal,
              .ok [0x1B, 0, 0, 8],
              .ok (encode_recv_piecemeal (List.replicate 8 0))], []⟩).1 =
          .ok () ∧
        (write_block_spare ⟨16, 4, 6⟩ (List.replicate 16 0)
            [0x01, 0x02, 0x03, 0x9A, 0x00, 0xFF] 3
            ⟨[.ok readySignal, .ok readySignal, .ok readySignal,
              .ok [0x1B, 0, 0, 8],
              .ok (encode_recv_piecemeal (List.replicate 8 0))], []⟩).2.sent.length =
          4) := by
  refine ⟨?_, by decide, by decide⟩
  simp only [write_block_spare, h5]
  simp [hm]

/-- Witness for C4: writing with spare byte 5 equal to `0x00` is an
immediate success that leaves the connection untouched. -/
theorem C4_witness :
    write_block_spare ⟨16, 4, 6⟩ (List.replicate 16 0)
        [0x01, 0x02, 0x03, 0x9A, 0x00, 0x00] 3 ⟨[], []⟩ = (.ok (), ⟨[], []⟩) :=
  (C4_write_block_spare_bad_block ⟨16, 4, 6⟩ ⟨[], []⟩ (List.replicate 16 0)
      [0x01, 0x02, 0x03, 0x9A, 0x00, 0x00] 3 0 (by decide) (by decide)).1

/-! ## Claim C2 -/

/-- Claim C2, as stated, is false: on a trace where the very first command
request fails (the device answers the ready poll, then sends the bad-tag
header `99 00 00 00` to the reply read), `read_block_spare` of block 7 does
not move on to the next attempt — the failure propagates out immediately via
`?`, so the result is the underlying `Error::Io`, not a success and not the
`ReadBlock(7)` error that five abandoned attempts would produce. -/
theorem C2_counterexample :
    (read_block_spare ⟨16, 4, 6⟩ 7
          ⟨[.ok readySignal, .ok [0x99, 0, 0, 0]], []⟩).1 = .error .ioError ∧
      (Except.error .ioError : Except Err (List Nat × List Nat)) ≠
        .error (.readBlock 7) := by decide

/-- Claim C2 (amended): only failures of the block-body read and of the
spare read abandon the attempt and move on to the next, up to 5 attempts,
with exhaustion yielding `ReadBlock` carrying the block index; a failure of
the command-request stage instead aborts the whole operation at once,
propagating the error of that stage.  The second conjunct shows exhaustion on
a trace where the request succeeds five times and the block read fails five
times. -/
theorem C2_read_block_spare :
    (∀ (P : DevParams) (block_num : Nat) (c c1 : Conn) (e : Err),
        request_block_read .ReadBlockAndSpare block_num c = (.error e, c1) →
          read_block_spare P block_num c = (.error e, c1)) ∧
      (read_block_spare ⟨16, 4, 6⟩ 7
            ⟨List.flatten (List.replicate 5
              [.ok readySignal, .ok [0x1B, 0, 0, 8],
                .ok (encode_recv_piecemeal (List.replicate 8 0)),
                .ok [0x77, 0, 0, 0]]), []⟩).1 =
        .error (.readBlock 7) := by
  refine ⟨?_, by decide⟩
  intro P block_num c c1 e h
  simp only [read_block_spare, readBlockSpareGo, h]

/-- Witness for C2: on the counterexample trace, the failing command request
makes `read_block_spare` return that failure directly. -/
theorem C2_witness :
    read_block_spare ⟨16, 4, 6⟩ 7 ⟨[.ok readySignal, .ok [0x99, 0, 0, 0]], []⟩ =
      (.error .ioError,
        ⟨[], [[0x43, 0, 0, 0, 0x43, 0x11, 0, 0, 0x42, 0, 7]]⟩) :=
  (C2_read_block_spare).1 ⟨16, 4, 6⟩ 7
    ⟨[.ok readySignal, .ok [0x99, 0, 0, 0]], []⟩
    ⟨[], [[0x43, 0, 0, 0, 0x43, 0x11, 0, 0, 0x42, 0, 7]]⟩ .ioError (by decide)

/-! ## Claim C8 -/

/-- The filename-length rejection condition exactly as `send_filename`
computes it: only the first dot-separated component (the name) and, when a
second exists, the second component (the extension) are measured. -/
def filenameTooLong83 (fn : List Nat) : Bool :=
  decide (((splitDot fn).headD []).length > 8) ||
    decide ((if (splitDot fn).length > 1 then (splitDot fn).getD 1 [] else []).length > 3)

/-- The decomposition condition of the claim, written from the words of the spec: the
filename is a dot-free name of at most 8 characters, or a dot-free name of
at most 8 characters, one dot, and a dot-free extension of at most 3
characters. -/
def decomposes83 (fn : List Nat) : Bool :=
  (!fn.contains 0x2E && decide (fn.length ≤ 8)) ||
    (List.range fn.length).any fun i =>
      fn.getD i 0 == 0x2E && !(fn.take i).contains 0x2E &&
        decide ((fn.take i).length ≤ 8) && !(fn.drop (i + 1)).contains 0x2E &&
        decide ((fn.drop (i + 1)).length ≤ 3)

/-- ASCII bytes of the filename AUTOEXEC.CFG. -/
def autoexecCfg : List Nat := [65, 85, 84, 79, 69, 88, 69, 67, 46, 67, 70, 71]

/-- ASCII bytes of the filename AUTOEXECUTE.CFG. -/
def autoexecuteCfg : List Nat :=
  [65, 85, 84, 79, 69, 88, 69, 67, 85, 84, 69, 46, 67, 70, 71]

/-- Claim C8, as stated, is false: the filename `A.B.CCCC` does not
decompose into a name of at most 8 characters plus an optional extension of
at most 3 characters, yet the checksum operation does not reject it — only
the first two dot-separated components (`A` and `B`) are checked, so on a
cooperative transport the filename is accepted and sent. -/
theorem C8_counterexample :
    decomposes83 [65, 46, 66, 46, 67, 67, 67, 67] = false ∧
      (send_filename [65, 46, 66, 46, 67, 67, 67, 67]
          ⟨[.ok readySignal, .ok readySignal], []⟩).1 = .ok () := by decide

/-- Claim C8 (amended): the checksum operation validates only the first two
dot-separated components — it rejects with `FileNameTooLong`, before any
transport activity, exactly when the first component exceeds 8 bytes or a
present second component exceeds 3 bytes; a filename passing that check but
containing an embedded NUL is rejected with `FileNameCString`, also before
any transport activity; `AUTOEXEC.CFG` is accepted (and sent on a
cooperative transport) while `AUTOEXECUTE.CFG` is rejected with
`FileNameTooLong`. -/
theorem C8_send_filename :
    (∀ (fn : List Nat) (c : Conn), filenameTooLong83 fn = true →
        send_filename fn c = (.error (.fileNameTooLong fn), c)) ∧
    (∀ (fn : List Nat) (c : Conn), filenameTooLong83 fn = false →
        fn.contains 0 = true →
        send_filename fn c = (.error (.fileNameCString fn), c)) ∧
    ((send_filename autoexecCfg ⟨[.ok readySignal, .ok readySignal], []⟩).1 =
        .ok ()) ∧
    (∀ c : Conn, send_filename autoexecuteCfg c =
        (.error (.fileNameTooLong autoexecuteCfg), c)) := by
  refine ⟨?_, ?_, by decide, ?_⟩
  · intro fn c h
    simp only [filenameTooLong83, Bool.or_eq_true, decide_eq_true_eq] at h
    simp only [send_filename]
    rw [if_pos h]
  · intro fn c h hnul
    simp only [filenameTooLong83, Bool.or_eq_false_iff,
      decide_eq_false_iff_not, not_lt] at h
    simp only [send_filename]
    rw [if_neg (by omega), if_pos hnul]
  · intro c
    simp [send_filename, autoexecuteCfg, splitDot]

/-- Witness for C8: the 9-character dotless name `ABCDEFGHI` is rejected as
too long, and `A<NUL>` (passing the length check) is rejected as not
C-string representable, each leaving the connection untouched. -/
theorem C8_witness :
    send_filename [65, 66, 67, 68, 69, 70, 71, 72, 73] ⟨[], []⟩ =
        (.error (.fileNameTooLong [65, 66, 67, 68, 69, 70, 71, 72, 73]),
          ⟨[], []⟩) ∧
      send_filename [65, 0] ⟨[], []⟩ =
        (.error (.fileNameCString [65, 0]), ⟨[], []⟩) :=
  ⟨C8_send_filename.1 [65, 66, 67, 68, 69, 70, 71, 72, 73] ⟨[], []⟩ (by decide),
    C8_send_filename.2.1 [65, 0] ⟨[], []⟩ (by decide) (by decide)⟩

/-! ## Claim C10 -/

/-- A device trace answering one reply read with a header declaring body
length `L` followed by the receive-encoded body of `L` zero bytes. -/
def lenHdrTrace (L : Nat) : Conn :=
  ⟨[.ok [0x1B, 0, 0, L], .ok (encode_recv_piecemeal (List.replicate L 0))], []⟩

/-- Trace `lenHdrTrace` preceded by the ready signal a command send waits for. -/
def cmdReplyTrace (L : Nat) : Conn :=
  ⟨.ok readySignal :: (lenHdrTrace L).inbound, []⟩

/-- Claim C10: `receive_reply 8` accepts every device-declared length from
1 through 7 (returning that many decoded bytes), yet the return-code parsers
slice reply bytes 4..8, so such a short reply drives `get_num_blocks` — and
likewise `get_bbid`, `init_fs` and `check_block_write` — into the modelled
panic outcome (`assertFailure`, the out-of-bounds slice/failed length
assertion), not a typed error. -/
theorem C10_short_reply_panics :
    (∀ L, 1 ≤ L → L ≤ 7 →
        (receive_reply 8 (lenHdrTrace L)).1 = .ok (List.replicate L 0) ∧
          (get_num_blocks (cmdReplyTrace L)).1 = .error .assertFailure) ∧
      (get_bbid (cmdReplyTrace 4)).1 = .error .assertFailure ∧
      (init_fs (cmdReplyTrace 4)).1 = .error .assertFailure ∧
      (check_block_write (lenHdrTrace 4)).1 = .error .assertFailure := by
  refine ⟨?_, by decide, by decide, by decide⟩
  intro L h1 h2
  interval_cases L <;> exact ⟨by decide, by decide⟩

/-- Witness for C10 at declared length 3: the reply passes
`receive_reply 8` with 3 bytes and `get_num_blocks` hits the modelled
panic. -/
theorem C10_witness :
    (receive_reply 8 (lenHdrTrace 3)).1 = .ok (List.replicate 3 0) ∧
      (get_num_blocks (cmdReplyTrace 3)).1 = .error .assertFailure :=
  C10_short_reply_panics.1 3 (by decide) (by decide)

/-! ## Claim C9 -/

/-- Claim C9: `decode_piecemeal_data` never returns `Ok` with an output
whose length differs from the caller-declared expected length, and a
shortfall after the input is exhausted hits the
`assert!(buf.len() == expected_len)` (modelled as the panic outcome
`assertFailure`), never a silently short success. -/
theorem C9_decode_length_enforced :
    (∀ data expected_len out,
        decode_piecemeal_data data expected_len = .ok out →
          out.length = expected_len) ∧
    (∀ expected_len, 0 < expected_len →
        decode_piecemeal_data [] expected_len = .error .assertFailure) := by
  constructor
  · intro data expected_len out h
    exact decode_piecemeal_data_ok_length data expected_len out h
  · intro expected_len h
    simp [decode_piecemeal_data, decodeGo, h]

/-- Witness for C9 at concrete inputs: decoding `[0x1E, 5, 6]` with expected
length 2 yields `[5, 6]`, which the claim forces to have length 2; and
decoding an exhausted input against expected length 3 is the modelled
panic. -/
theorem C9_witness :
    ([5, 6] : List Nat).length = 2 ∧
      decode_piecemeal_data [] 3 = .error .assertFailure :=
  ⟨C9_decode_length_enforced.1 [0x1E, 5, 6] 2 [5, 6] (by decide),
    C9_decode_length_enforced.2 3 (by decide)⟩

/-! ## Claim C6 -/

/-- The trace condition under which the ready poll succeeds: walking the
pending receive outcomes, the first event that is not a well-formed 4-byte
non-ready pattern decides the poll — success exactly if it is the ready
signal. -/
def readySeen : List RecvEvent → Bool
  | [] => false
  | .error _ :: _ => false
  | .ok b :: rest =>
    if b.take 4 = readySignal then true
    else if (b.take 4).length = 4 then readySeen rest
    else false

/-- Lemma: `waitReadyGo` with sufficient fuel succeeds exactly on traces satisfying
`readySeen`. -/
theorem waitReadyGo_ok_iff (n : Nat) :
    ∀ c : Conn, c.inbound.length < n →
      ((waitReadyGo n c).1 = .ok () ↔ readySeen c.inbound = true) := by
  induction n with
  | zero => intro c hc; omega
  | succ m ih =>
    intro c hc
    match hcon : c.inbound with
    | [] =>
      simp [waitReadyGo, is_ready, bulk_transfer_receive, hcon, readySeen]
    | .error e :: rest =>
      simp [waitReadyGo, is_ready, bulk_transfer_receive, hcon, readySeen]
    | .ok b :: rest =>
      by_cases hready : b.take 4 = readySignal
      · simp [waitReadyGo, is_ready, bulk_transfer_receive, hcon, readySeen,
          hready, readySignal]
      · by_cases hlen : (b.take 4).length = 4
        · have hrec := ih { c with inbound := rest } (by simp [hcon] at hc ⊢; omega)
          simp [waitReadyGo, is_ready, bulk_transfer_receive, hcon, readySeen,
            hready, hlen] at hrec ⊢
          exact hrec
        · have hb : b.length < 4 := by simp [List.length_take] at hlen; omega
          have hb4 : ¬4 ≤ b.length := by omega
          simp [waitReadyGo, is_ready, bulk_transfer_receive, hcon, readySeen,
            hready, hlen, hb, hb4]

/-- Claim C6: the ready poll succeeds exactly when the trace reaches a
4-byte receive equal to `15 00 00 00`; a well-formed 4-byte value other
than the ready signal just continues the poll on the remaining trace; a
receive shorter than 4 bytes is an `Error::Io` framing failure. -/
theorem C6_wait_ready (c : Conn) (b : List Nat) (rest : List RecvEvent)
    (s : List (List Nat)) :
    ((wait_ready c).1 = .ok () ↔ readySeen c.inbound = true) ∧
    ((b.take 4).length = 4 → b.take 4 ≠ readySignal →
        wait_ready ⟨.ok b :: rest, s⟩ = wait_ready ⟨rest, s⟩) ∧
    (b.length < 4 →
        wait_ready ⟨.ok b :: rest, s⟩ = (.error .ioError, ⟨rest, s⟩)) := by
  refine ⟨waitReadyGo_ok_iff (c.inbound.length + 1) c (by omega), ?_, ?_⟩
  · intro hlen hready
    simp [wait_ready, waitReadyGo, is_ready, bulk_transfer_receive, hlen, hready]
  · intro hshort
    have h1 : (List.take 4 b).length ≠ 4 := by
      simp only [List.length_take]
      omega
    have h2 : List.take 4 b ≠ readySignal := by
      intro hcontra
      have := congrArg List.length hcontra
      simp [readySignal] at this
      omega
    simp [wait_ready, waitReadyGo, is_ready, bulk_transfer_receive, h1, h2,
      hshort]

/-- Witness for C6: a poll seeing garbage `[1, 2, 3, 4]` then the ready
signal succeeds and equals the poll on the suffix trace; a 2-byte receive is
the framing error. -/
theorem C6_witness :
    ((wait_ready ⟨[.ok [1, 2, 3, 4], .ok readySignal], []⟩).1 = .ok () ↔
        readySeen [.ok [1, 2, 3, 4], .ok readySignal] = true) ∧
      (wait_ready ⟨[.ok [1, 2, 3, 4], .ok readySignal], []⟩ =
        wait_ready ⟨[.ok readySignal], []⟩) ∧
      (wait_ready ⟨[.ok [1, 2], .ok readySignal], []⟩ =
        (.error .ioError, ⟨[.ok readySignal], []⟩)) :=
  ⟨(C6_wait_ready ⟨[.ok [1, 2, 3, 4], .ok readySignal], []⟩ [1, 2, 3, 4]
        [.ok readySignal] []).1,
    (C6_wait_ready ⟨[.ok [1, 2, 3, 4], .ok readySignal], []⟩ [1, 2, 3, 4]
        [.ok readySignal] []).2.1 (by decide) (by decide),
    (C6_wait_ready ⟨[.ok [1, 2], .ok readySignal], []⟩ [1, 2]
        [.ok readySignal] []).2.2 (by decide)⟩

/-! ## Claim C7 -/

/-- Claim C7: the reply-length-header read discards a header equal to the
ready signal and retries; a 4-byte header with top byte `0x1B` yields its
low 3 bytes as a big-endian body length; a 4-byte header with any other top
byte, or a header of wrong length, is an `Error::Io` framing failure. -/
theorem C7_receive_data_length (b : List Nat) (rest : List RecvEvent)
    (s : List (List Nat)) (x y z : Nat) :
    (b.take 4 = readySignal →
        receive_data_length ⟨.ok b :: rest, s⟩ = receive_data_length ⟨rest, s⟩) ∧
    (x < 256 → y < 256 → z < 256 →
        receive_data_length ⟨.ok [0x1B, x, y, z] :: rest, s⟩ =
          (.ok (x * 2 ^ 16 + y * 2 ^ 8 + z), ⟨rest, s⟩)) ∧
    ((b.take 4).length = 4 → b.take 4 ≠ readySignal →
        (b.take 4).headD 0 ≠ 0x1B →
        receive_data_length ⟨.ok b :: rest, s⟩ = (.error .ioError, ⟨rest, s⟩)) ∧
    (b.length < 4 →
        receive_data_length ⟨.ok b :: rest, s⟩ = (.error .ioError, ⟨rest, s⟩)) := by
  refine ⟨?_, ?_, ?_, ?_⟩
  · intro hready
    simp [receive_data_length, receiveDataLengthGo, bulk_transfer_receive, hready]
  · intro hx hy hz
    simp [receive_data_length, receiveDataLengthGo, bulk_transfer_receive,
      num_from_arr_u32, readySignal]
    omega
  · intro hlen hready hhead
    simp [receive_data_length, receiveDataLengthGo, bulk_transfer_receive,
      hlen, hready, hhead]
    intro hcontra
    exact absurd hcontra (by simpa using hhead)
  · intro hshort
    have h1 : (List.take 4 b).length ≠ 4 := by
      simp only [List.length_take]
      omega
    have h2 : List.take 4 b ≠ readySignal := by
      intro hcontra
      have := congrArg List.length hcontra
      simp [readySignal] at this
      omega
    simp [receive_data_length, receiveDataLengthGo, bulk_transfer_receive,
      h1, h2]
    intro h3
    exact absurd h3 (by omega)

/-- Witness for C7: a stray ready header is discarded and the read retried;
the header `1B 00 02 01` declares length 513; the header `99 00 00 00` and
the short header `1B 00` are framing errors. -/
theorem C7_witness :
    (receive_data_length ⟨[.ok readySignal, .ok [0x1B, 0, 2, 1]], []⟩ =
        receive_data_length ⟨[.ok [0x1B, 0, 2, 1]], []⟩) ∧
      (receive_data_length ⟨[.ok [0x1B, 0, 2, 1]], []⟩ = (.ok 513, ⟨[], []⟩)) ∧
      (receive_data_length ⟨[.ok [0x99, 0, 0, 0]], []⟩ =
        (.error .ioError, ⟨[], []⟩)) ∧
      (receive_data_length ⟨[.ok [0x1B, 0]], []⟩ =
        (.error .ioError, ⟨[], []⟩)) :=
  ⟨(C7_receive_data_length readySignal [.ok [0x1B, 0, 2, 1]] [] 0 0 0).1
      (by decide),
    by
      have h :=
        (C7_receive_data_length [] [] [] 0 2 1).2.1 (by decide) (by decide)
          (by decide)
      simpa using h,
    (C7_receive_data_length [0x99, 0, 0, 0] [] [] 0 0 0).2.2.1 (by decide)
      (by decide) (by decide),
    (C7_receive_data_length [0x1B, 0] [] [] 0 0 0).2.2.2 (by decide)⟩

/-! ## Claim C5 -/

/-- When `receive_data` succeeds its output has exactly the requested
length: the output comes from `decode_piecemeal_data` at that length. -/
theorem receive_data_ok_length (expected_len : Nat) (c : Conn) (out : List Nat)
    (c2 : Conn) (h : receive_data expected_len c = (.ok out, c2)) :
    out.length = expected_len := by
  unfold receive_data at h
  dsimp only at h
  split at h
  · simp at h
  · split at h
    · simp at h
    · split at h
      case _ heq =>
        injection h with h1 h2
        injection h1 with h3
        subst h3
        exact decode_piecemeal_data_ok_length _ _ _ heq
      · simp at h

/-- Claim C5: when the header declares length `L`, `receive_reply` fails
with `Error::InvalidParam` — leaving the connection exactly as the header
read left it, with no body read attempted — whenever `L` is zero or exceeds
the caller-supplied maximum; otherwise it hands off to the body reception at
exactly `L`, whose successful result has exactly `L` bytes. -/
theorem C5_receive_reply (c : Conn) (expected_len L : Nat) (c1 : Conn)
    (h : receive_data_length c = (.ok L, c1)) :
    ((L = 0 ∨ L > expected_len) →
        receive_reply expected_len c = (.error .invalidParam, c1)) ∧
    (¬(L = 0 ∨ L > expected_len) →
        receive_reply expected_len c = receive_data L c1 ∧
          ∀ out c2, receive_data L c1 = (.ok out, c2) → out.length = L) := by
  constructor
  · intro hbad
    simp only [receive_reply, h, if_pos hbad]
  · intro hgood
    refine ⟨?_, fun out c2 hok => receive_data_ok_length L c1 out c2 hok⟩
    simp only [receive_reply, h, if_neg hgood]

/-- Witness for C5: a header declaring length 9 against maximum 8 is
rejected with the connection stopped right after the header; a header
declaring 4 leads to the body reception, which returns the 4 decoded
bytes. -/
theorem C5_witness :
    (receive_reply 8 ⟨[.ok [0x1B, 0, 0, 9]], []⟩ =
        (.error .invalidParam, ⟨[], []⟩)) ∧
      (receive_reply 8
          ⟨[.ok [0x1B, 0, 0, 4], .ok (encode_recv_piecemeal [9, 8, 7, 6])], []⟩ =
        receive_data 4 ⟨[.ok (encode_recv_piecemeal [9, 8, 7, 6])], []⟩ ∧
        ([9, 8, 7, 6] : List Nat).length = 4) :=
  ⟨(C5_receive_reply ⟨[.ok [0x1B, 0, 0, 9]], []⟩ 8 9 ⟨[], []⟩ (by decide)).1
      (by decide),
    ((C5_receive_reply
          ⟨[.ok [0x1B, 0, 0, 4], .ok (encode_recv_piecemeal [9, 8, 7, 6])], []⟩
          8 4 ⟨[.ok (encode_recv_piecemeal [9, 8, 7, 6])], []⟩
          (by decide)).2 (by decide)).1,
    ((C5_receive_reply
          ⟨[.ok [0x1B, 0, 0, 4], .ok (encode_recv_piecemeal [9, 8, 7, 6])], []⟩
          8 4 ⟨[.ok (encode_recv_piecemeal [9, 8, 7, 6])], []⟩
          (by decide)).2 (by decide)).2 [9, 8, 7, 6] ⟨[], [[0x44]]⟩ (by decide)⟩
